import Mathlib

/-!
Shallow embedding of the website checker route
(`src/app/api/check/route.ts`, exported handler `POST`).

The route normalizes a URL, performs one HTTP GET via axios, parses the body
with cheerio, runs a fixed sequence of SEO / security / performance checks
that append issue and recommendation strings and deduct points from three
scores starting at 100, derives an overall status, and assembles a report.

Modelling conventions:
* cheerio is an external library; the route only consumes the results of a
  fixed set of queries on the parsed document (`$('title').text()`,
  `$('meta[name="description"]').attr('content')`, `$('h1').length`,
  `$('img:not([alt])').length`, `$('meta[name="viewport"]').attr('content')`,
  `$('script:not([src])').length`, `$('script[src]').length`,
  `$('link[rel="stylesheet"]').length`).  Those query results are the fields
  of the `Doc` structure below.
* axios exposes response headers as a plain object whose keys are the header
  names lower-cased (`lowerNames` below models that normalization); the raw
  on-the-wire headers are a list of name/value pairs in arbitrary casing.
* JavaScript string truthiness (`!x` for `x : string | undefined`) is
  `jsFalsy`: true exactly on `undefined` (`none`) and the empty string.
* The `timestamp` field (wall-clock time) is outside the embedding; no
  claim mentions it.
-/

/-- ASCII lower-casing of a string, character by character (JS
`toLowerCase` restricted to the ASCII header names it is applied to).
Defined structurally over the character list so that it reduces in the
kernel, unlike `String.toLower`. -/
def strToLower (s : String) : String :=
  ⟨s.data.map Char.toLower⟩

/-- JS falsiness of a `string | undefined` value: `!x` is true iff the value
is `undefined` or the empty string. -/
def jsFalsy : Option String → Bool
  | none => true
  | some s => s == ""

/-- Whether the character list `pat` is a prefix of `l` (Boolean). -/
def charsStartWith : List Char → List Char → Bool
  | [], _ => true
  | _ :: _, [] => false
  | p :: ps, c :: cs => p == c && charsStartWith ps cs

/-- Whether `pat` occurs as a contiguous run inside `l` (Boolean). -/
def charsContain (pat : List Char) : List Char → Bool
  | [] => charsStartWith pat []
  | c :: cs => charsStartWith pat (c :: cs) || charsContain pat cs

/-- JS `String.prototype.includes`: substring containment. -/
def jsIncludes (s pat : String) : Bool :=
  charsContain pat.data s.data

/-- JS `String.prototype.startsWith`, structurally over the character lists
(kernel-reducible, unlike `String.startsWith`). -/
def strStartsWith (s pre : String) : Bool :=
  charsStartWith pre.data s.data

/-- Line 26: `url.startsWith('http') ? url : ` followed by
the template literal prepending the scheme. -/
def normalizeUrl (url : String) : String :=
  if strStartsWith url "http" then url else "https://" ++ url

/-- Results of the cheerio queries the route performs on the parsed body. -/
structure Doc where
  /-- `$('title').text()` — empty string when no title element exists. -/
  title : String
  /-- `$('meta[name="description"]').attr('content')`. -/
  metaDescription : Option String
  /-- `$('h1').length`. -/
  h1Count : Nat
  /-- `$('img:not([alt])').length`. -/
  imagesWithoutAlt : Nat
  /-- `$('meta[name="viewport"]').attr('content')`. -/
  viewport : Option String
  /-- `$('script:not([src])').length`. -/
  inlineScripts : Nat
  /-- `$('script[src]').length`. -/
  externalScripts : Nat
  /-- `$('link[rel="stylesheet"]').length`. -/
  stylesheets : Nat
deriving DecidableEq, Repr

/-- Output of one check: strings pushed onto `issues`, strings pushed onto
`recommendations`, and the amount deducted from the block's score. -/
structure CheckOut where
  issues : List String
  recs : List String
  ded : Int
deriving DecidableEq, Repr

/-- Output of one analysis block: appended strings plus the block score. -/
structure ScoredOut where
  issues : List String
  recs : List String
  score : Int
deriving DecidableEq, Repr

/-- Lines 58–64: status-code classifier, an `if`/`else if` chain that
pushes at most one issue and touches no score. -/
def statusCodeIssues (statusCode : Nat) : List String :=
  if 500 ≤ statusCode then ["Server error (" ++ toString statusCode ++ ")"]
  else if 400 ≤ statusCode then ["Client error (" ++ toString statusCode ++ ")"]
  else if 300 ≤ statusCode then ["Redirect detected (" ++ toString statusCode ++ ")"]
  else []

/-- Lines 67–72: response-time classifier. -/
def responseTimeCheck (responseTime : Nat) : CheckOut :=
  if 3000 < responseTime then
    ⟨["Slow response time (>3 seconds)"],
     ["Consider optimizing server performance or using a CDN"], 0⟩
  else if 1000 < responseTime then
    ⟨[], ["Response time could be improved (currently >1 second)"], 0⟩
  else ⟨[], [], 0⟩

/-- Lines 81–88: title check (`!title || title.length === 0` collapses to
"title is the empty string"). -/
def titleCheck (title : String) : CheckOut :=
  if title == "" then ⟨["Missing page title"], [], 15⟩
  else if 60 < title.length then
    ⟨[], ["Page title is too long (should be under 60 characters)"], 5⟩
  else ⟨[], [], 0⟩

/-- Lines 91–98: meta-description check. -/
def metaDescriptionCheck (md : Option String) : CheckOut :=
  if jsFalsy md then ⟨["Missing meta description"], [], 15⟩
  else if 160 < (md.getD "").length then
    ⟨[], ["Meta description is too long (should be under 160 characters)"], 5⟩
  else ⟨[], [], 0⟩

/-- Lines 101–108: H1-count check. -/
def h1Check (h1Count : Nat) : CheckOut :=
  if h1Count == 0 then ⟨["No H1 heading found"], [], 10⟩
  else if 1 < h1Count then
    ⟨[], ["Multiple H1 headings detected (should have only one)"], 5⟩
  else ⟨[], [], 0⟩

/-- Lines 111–115: images-without-alt check,
deducting `Math.min(10, imagesWithoutAlt * 2)`. -/
def imageCheck (imagesWithoutAlt : Nat) : CheckOut :=
  if 0 < imagesWithoutAlt then
    ⟨[toString imagesWithoutAlt ++ " images missing alt text"], [],
     min 10 ((imagesWithoutAlt : Int) * 2)⟩
  else ⟨[], [], 0⟩

/-- Lines 118–122: viewport meta-tag check. -/
def viewportCheck (viewport : Option String) : CheckOut :=
  if jsFalsy viewport then
    ⟨["Missing viewport meta tag for mobile responsiveness"], [], 10⟩
  else ⟨[], [], 0⟩

/-- Lines 78–122: the SEO block.  The source pushes strings and subtracts
deductions sequentially; appends commute into one concatenation per list and
the score is 100 minus the accumulated deductions. -/
def seoAnalysis (d : Doc) : ScoredOut :=
  let c1 := titleCheck d.title
  let c2 := metaDescriptionCheck d.metaDescription
  let c3 := h1Check d.h1Count
  let c4 := imageCheck d.imagesWithoutAlt
  let c5 := viewportCheck d.viewport
  { issues := c1.issues ++ c2.issues ++ c3.issues ++ c4.issues ++ c5.issues
    recs := c1.recs ++ c2.recs ++ c3.recs ++ c4.recs ++ c5.recs
    score := 100 - c1.ded - c2.ded - c3.ded - c4.ded - c5.ded }

/-- axios response-header normalization: header names are lower-cased. -/
def lowerNames (raw : List (String × String)) : List (String × String) :=
  raw.map fun p => (strToLower p.1, p.2)

/-- Property access `headers[key]` on the (axios-normalized) header object:
the value stored at exactly `key`, if any. -/
def lookupHeader (headers : List (String × String)) (key : String) : Option String :=
  (headers.find? fun p => p.1 == key).map Prod.snd

/-- Lines 128–132: HTTPS check against the normalized URL. -/
def httpsCheck (normalizedUrl : String) : CheckOut :=
  if !(strStartsWith normalizedUrl "https://") then
    ⟨["Website is not using HTTPS"], ["Enable HTTPS to secure data transmission"], 30⟩
  else ⟨[], [], 0⟩

/-- Lines 135–140: the `securityHeaders` table, lower-case key to
canonical display name. -/
def securityHeaderTable : List (String × String) :=
  [("strict-transport-security", "Strict-Transport-Security"),
   ("x-frame-options", "X-Frame-Options"),
   ("x-content-type-options", "X-Content-Type-Options"),
   ("content-security-policy", "Content-Security-Policy")]

/-- Lines 142–147, one loop iteration:
`if (!headers[headerKey] && !headers[headerKey.toLowerCase()])`. -/
def headerCheck (headers : List (String × String)) (key name : String) : CheckOut :=
  if jsFalsy (lookupHeader headers key) && jsFalsy (lookupHeader headers (strToLower key)) then
    ⟨[], ["Consider adding " ++ name ++ " header"], 10⟩
  else ⟨[], [], 0⟩

/-- Lines 125–147: the security block (HTTPS check, then the four header
checks in table order). -/
def securityAnalysis (normalizedUrl : String) (headers : List (String × String)) :
    ScoredOut :=
  let c0 := httpsCheck normalizedUrl
  let c1 := headerCheck headers "strict-transport-security" "Strict-Transport-Security"
  let c2 := headerCheck headers "x-frame-options" "X-Frame-Options"
  let c3 := headerCheck headers "x-content-type-options" "X-Content-Type-Options"
  let c4 := headerCheck headers "content-security-policy" "Content-Security-Policy"
  { issues := c0.issues ++ c1.issues ++ c2.issues ++ c3.issues ++ c4.issues
    recs := c0.recs ++ c1.recs ++ c2.recs ++ c3.recs ++ c4.recs
    score := 100 - c0.ded - c1.ded - c2.ded - c3.ded - c4.ded }

/-- Lines 153–157: inline-scripts check. -/
def inlineScriptsCheck (inlineScripts : Nat) : CheckOut :=
  if 5 < inlineScripts then
    ⟨[], ["Consider reducing inline scripts and using external files"], 10⟩
  else ⟨[], [], 0⟩

/-- Lines 159–163: external-scripts check. -/
def externalScriptsCheck (externalScripts : Nat) : CheckOut :=
  if 15 < externalScripts then
    ⟨[], ["Consider reducing number of external scripts"], 10⟩
  else ⟨[], [], 0⟩

/-- Lines 165–169: stylesheet-count check. -/
def stylesheetsCheck (stylesheets : Nat) : CheckOut :=
  if 10 < stylesheets then
    ⟨[], ["Consider combining CSS files to reduce HTTP requests"], 10⟩
  else ⟨[], [], 0⟩

/-- Lines 172–175: whitespace "minification" heuristic on the raw body
(four consecutive spaces or three consecutive newlines). -/
def minifyCheck (htmlContent : String) : CheckOut :=
  if jsIncludes htmlContent "    " || jsIncludes htmlContent "\n\n\n" then
    ⟨[], ["Consider minifying HTML for better performance"], 5⟩
  else ⟨[], [], 0⟩

/-- Lines 150–175: the performance block. -/
def performanceAnalysis (d : Doc) (htmlContent : String) : ScoredOut :=
  let c1 := inlineScriptsCheck d.inlineScripts
  let c2 := externalScriptsCheck d.externalScripts
  let c3 := stylesheetsCheck d.stylesheets
  let c4 := minifyCheck htmlContent
  { issues := c1.issues ++ c2.issues ++ c3.issues ++ c4.issues
    recs := c1.recs ++ c2.recs ++ c3.recs ++ c4.recs
    score := 100 - c1.ded - c2.ded - c3.ded - c4.ded }

/-- The full `issues` array after all checks on the successful-fetch path,
in push order: status-code block, response-time block, SEO block, security
block, performance block. -/
def analysisIssues (statusCode responseTime : Nat) (normalizedUrl htmlContent : String)
    (headers : List (String × String)) (d : Doc) : List String :=
  statusCodeIssues statusCode ++ (responseTimeCheck responseTime).issues ++
    (seoAnalysis d).issues ++ (securityAnalysis normalizedUrl headers).issues ++
    (performanceAnalysis d htmlContent).issues

/-- The full `recommendations` array after all checks (before the
"great job" append), in push order. -/
def analysisRecs (responseTime : Nat) (normalizedUrl htmlContent : String)
    (headers : List (String × String)) (d : Doc) : List String :=
  (responseTimeCheck responseTime).recs ++ (seoAnalysis d).recs ++
    (securityAnalysis normalizedUrl headers).recs ++
    (performanceAnalysis d htmlContent).recs

/-- Lines 178–183: overall status derivation from the aggregate counts. -/
def deriveStatus (issuesLen recsLen statusCode : Nat) : String :=
  if 5 < issuesLen ∨ 500 ≤ statusCode then "error"
  else if 0 < issuesLen ∨ 3 < recsLen then "warning"
  else "success"

/-- The report shape (`CheckResult` in the source); `timestamp` is omitted
(wall-clock time, outside the embedding). -/
structure CheckResult where
  url : String
  status : String
  statusCode : Option Nat
  responseTime : Option Nat
  issues : List String
  recommendations : List String
  seoScore : Option Int
  performanceScore : Option Int
  securityScore : Option Int
deriving DecidableEq, Repr

/-- Outcome of the axios GET: either a thrown error with its message, or the
captured status code, elapsed time, body text, response headers (as the
axios-normalized object contents), and cheerio query results on the body. -/
inductive FetchOutcome where
  | failure (message : String)
  | success (statusCode responseTime : Nat) (htmlContent : String)
      (headers : List (String × String)) (doc : Doc)
deriving DecidableEq, Repr

/-- Lines 26–203: the route body after input validation — URL normalization,
the fetch `try`/`catch` (lines 48–54 on failure), the analysis pipeline, and
report assembly (lines 190–201, with `Math.max(0, score)` floors). -/
def runCheck (url : String) (outcome : FetchOutcome) : CheckResult :=
  let normalizedUrl := normalizeUrl url
  match outcome with
  | .failure msg =>
    { url := normalizedUrl
      status := "error"
      statusCode := none
      responseTime := none
      issues := ["Failed to fetch website: " ++ msg]
      recommendations := ["Ensure the website is accessible and not blocking requests"]
      seoScore := none
      performanceScore := none
      securityScore := none }
  | .success statusCode responseTime htmlContent headers d =>
    let issues := analysisIssues statusCode responseTime normalizedUrl htmlContent headers d
    let recs := analysisRecs responseTime normalizedUrl htmlContent headers d
    let status := deriveStatus issues.length recs.length statusCode
    let recs2 := if issues.length == 0
      then recs ++ ["Great job! No critical issues detected"] else recs
    { url := normalizedUrl
      status := status
      statusCode := some statusCode
      responseTime := some responseTime
      issues := issues
      recommendations := recs2
      seoScore := some (max 0 (seoAnalysis d).score)
      performanceScore := some (max 0 (performanceAnalysis d htmlContent).score)
      securityScore := some (max 0 (securityAnalysis normalizedUrl headers).score) }

/-- Case-insensitive truthy presence of header `key` among the raw
on-the-wire headers (spec side of claim C4). -/
def headerPresentCI (raw : List (String × String)) (key : String) : Bool :=
  raw.any fun p => strToLower p.1 == key && p.2 != ""

/-- Concrete document of §8's worked example: `<title>Home</title>`, no meta
description, one `<h1>`, no images, a viewport meta tag with content. -/
def sampleDoc : Doc :=
  { title := "Home", metaDescription := none, h1Count := 1, imagesWithoutAlt := 0,
    viewport := some "width=device-width", inlineScripts := 0, externalScripts := 0,
    stylesheets := 0 }

/-- Raw response headers of the worked example: all four security headers
present, in canonical casing. -/
def sampleRawHeaders : List (String × String) :=
  [("Strict-Transport-Security", "max-age=63072000"),
   ("X-Frame-Options", "DENY"),
   ("X-Content-Type-Options", "nosniff"),
   ("Content-Security-Policy", "default-src self")]

/-- The report of the worked example: HTTPS URL, status 200, 500 ms. -/
def sampleReport : CheckResult :=
  runCheck "https://example.com"
    (.success 200 500 "<html><h1>Welcome</h1></html>" (lowerNames sampleRawHeaders) sampleDoc)

/-- A document whose only defect is six `<img>` elements without `alt`. -/
def sixImageDoc : Doc :=
  { title := "T", metaDescription := some "d", h1Count := 1, imagesWithoutAlt := 6,
    viewport := some "v", inlineScripts := 0, externalScripts := 0, stylesheets := 0 }

/-! ## Helper lemmas -/

lemma runCheck_success_issues (url html : String) (sc rt : Nat)
    (headers : List (String × String)) (d : Doc) :
    (runCheck url (.success sc rt html headers d)).issues
      = analysisIssues sc rt (normalizeUrl url) html headers d := rfl

lemma runCheck_success_status (url html : String) (sc rt : Nat)
    (headers : List (String × String)) (d : Doc) :
    (runCheck url (.success sc rt html headers d)).status
      = deriveStatus (analysisIssues sc rt (normalizeUrl url) html headers d).length
          (analysisRecs rt (normalizeUrl url) html headers d).length sc := rfl

lemma runCheck_success_recs (url html : String) (sc rt : Nat)
    (headers : List (String × String)) (d : Doc) :
    (runCheck url (.success sc rt html headers d)).recommendations
      = if (analysisIssues sc rt (normalizeUrl url) html headers d).length == 0
        then analysisRecs rt (normalizeUrl url) html headers d
              ++ ["Great job! No critical issues detected"]
        else analysisRecs rt (normalizeUrl url) html headers d := rfl

lemma seoAnalysis_score_bounds (d : Doc) :
    40 ≤ (seoAnalysis d).score ∧ (seoAnalysis d).score ≤ 100 := by
  unfold seoAnalysis titleCheck metaDescriptionCheck h1Check imageCheck viewportCheck
  split_ifs <;> simp <;> omega

lemma securityAnalysis_score_bounds (u : String) (hs : List (String × String)) :
    30 ≤ (securityAnalysis u hs).score ∧ (securityAnalysis u hs).score ≤ 100 := by
  unfold securityAnalysis httpsCheck headerCheck
  split_ifs <;> simp

lemma performanceAnalysis_score_bounds (d : Doc) (html : String) :
    65 ≤ (performanceAnalysis d html).score ∧ (performanceAnalysis d html).score ≤ 100 := by
  unfold performanceAnalysis inlineScriptsCheck externalScriptsCheck stylesheetsCheck minifyCheck
  split_ifs <;> simp

lemma lowerNames_cons (p : String × String) (t : List (String × String)) :
    lowerNames (p :: t) = (strToLower p.1, p.2) :: lowerNames t := rfl

lemma lookupHeader_lowerNames_falsy (raw : List (String × String)) (k : String)
    (hnd : (raw.map fun p => strToLower p.1).Nodup) :
    jsFalsy (lookupHeader (lowerNames raw) k) = !headerPresentCI raw k := by
  induction raw with
  | nil => rfl
  | cons p t ih =>
    have hnd' : (t.map fun q => strToLower q.1).Nodup := (List.nodup_cons.mp hnd).2
    have hhd : strToLower p.1 ∉ t.map fun q => strToLower q.1 :=
      (List.nodup_cons.mp hnd).1
    by_cases hk : strToLower p.1 = k
    · have habs : (t.any fun q => strToLower q.1 == k && q.2 != "") = false := by
        by_contra hc
        rw [Bool.not_eq_false, List.any_eq_true] at hc
        obtain ⟨q, hq, hqe⟩ := hc
        have h1 : strToLower q.1 = k := by
          simp only [Bool.and_eq_true, beq_iff_eq] at hqe
          exact hqe.1
        exact hhd (hk ▸ h1 ▸ List.mem_map_of_mem (fun q => strToLower q.1) hq)
      have hfind : lookupHeader (lowerNames (p :: t)) k = some p.2 := by
        rw [lowerNames_cons]
        unfold lookupHeader
        rw [List.find?_cons_of_pos _ (by simpa using hk)]
        rfl
      rw [hfind]
      simp only [headerPresentCI, List.any_cons, habs, Bool.or_false]
      simp [jsFalsy, hk, bne]
    · have step : lookupHeader (lowerNames (p :: t)) k = lookupHeader (lowerNames t) k := by
        rw [lowerNames_cons]
        unfold lookupHeader
        rw [List.find?_cons_of_neg _ (by simpa using hk)]
      rw [step, ih hnd']
      simp only [headerPresentCI, List.any_cons]
      have hfalse : (strToLower p.1 == k && p.2 != "") = false := by
        simp [hk]
      rw [hfalse, Bool.false_or]

lemma headerCheck_lowerNames (raw : List (String × String)) (k name : String)
    (hnd : (raw.map fun p => strToLower p.1).Nodup) (hk : strToLower k = k) :
    headerCheck (lowerNames raw) k name
      = if headerPresentCI raw k then ⟨[], [], 0⟩
        else ⟨[], ["Consider adding " ++ name ++ " header"], 10⟩ := by
  unfold headerCheck
  rw [hk, lookupHeader_lowerNames_falsy raw k hnd]
  cases h : headerPresentCI raw k <;> simp [h]

/-! ## Claim theorems -/

/-- C7: a raw URL not beginning with the recognized scheme prefix (`http`)
gets `https://` prepended; `"example.com"` becomes
`"https://example.com"`; an input already carrying the recognized prefix is
passed through unchanged; and the normalized form is the report's `url`
field on every path. -/
theorem url_normalization :
    (∀ url : String, strStartsWith url "http" = false →
      normalizeUrl url = "https://" ++ url)
    ∧ (∀ url : String, strStartsWith url "http" = true → normalizeUrl url = url)
    ∧ normalizeUrl "example.com" = "https://example.com"
    ∧ (∀ (url : String) (outcome : FetchOutcome),
        (runCheck url outcome).url = normalizeUrl url) := by
  refine ⟨?_, ?_, by decide, ?_⟩
  · intro url h
    simp [normalizeUrl, h]
  · intro url h
    simp [normalizeUrl, h]
  · intro url outcome
    cases outcome <;> rfl

/-- Witness for C7 at the concrete inputs `"example.com"` (no scheme) and
`"http://a.b"` (scheme already present). -/
theorem url_normalization_witness :
    normalizeUrl "example.com" = "https://example.com"
    ∧ normalizeUrl "http://a.b" = "http://a.b" :=
  ⟨(url_normalization.1 "example.com" (by decide)).trans (by decide),
   url_normalization.2.1 "http://a.b" (by decide)⟩

/-- C8: the status-code classifier is a pure function of the status code
appending at most one issue — `>= 500` a server-error issue, 400–499 a
client-error issue, 300–399 a redirect issue, anything else nothing — with
mutually exclusive branches, and the three scores of the report do not
depend on the status code at all. -/
theorem status_code_classifier :
    (∀ sc : Nat, 500 ≤ sc →
      statusCodeIssues sc = ["Server error (" ++ toString sc ++ ")"])
    ∧ (∀ sc : Nat, 400 ≤ sc → sc < 500 →
      statusCodeIssues sc = ["Client error (" ++ toString sc ++ ")"])
    ∧ (∀ sc : Nat, 300 ≤ sc → sc < 400 →
      statusCodeIssues sc = ["Redirect detected (" ++ toString sc ++ ")"])
    ∧ (∀ sc : Nat, sc < 300 → statusCodeIssues sc = [])
    ∧ (∀ sc : Nat, (statusCodeIssues sc).length ≤ 1)
    ∧ (∀ (url html : String) (sc sc' rt : Nat) (headers : List (String × String))
        (d : Doc),
        (runCheck url (.success sc rt html headers d)).seoScore
            = (runCheck url (.success sc' rt html headers d)).seoScore
        ∧ (runCheck url (.success sc rt html headers d)).performanceScore
            = (runCheck url (.success sc' rt html headers d)).performanceScore
        ∧ (runCheck url (.success sc rt html headers d)).securityScore
            = (runCheck url (.success sc' rt html headers d)).securityScore) := by
  refine ⟨?_, ?_, ?_, ?_, ?_, ?_⟩
  · intro sc h
    unfold statusCodeIssues
    rw [if_pos h]
  · intro sc h4 h5
    unfold statusCodeIssues
    rw [if_neg (by omega), if_pos h4]
  · intro sc h3 h4
    unfold statusCodeIssues
    rw [if_neg (by omega), if_neg (by omega), if_pos h3]
  · intro sc h
    unfold statusCodeIssues
    rw [if_neg (by omega), if_neg (by omega), if_neg (by omega)]
  · intro sc
    unfold statusCodeIssues
    split_ifs <;> simp
  · intro url html sc sc' rt headers d
    exact ⟨rfl, rfl, rfl⟩

/-- Witness for C8 at 503 (server error), 404 (client error),
301 (redirect) and 200 (no issue). -/
theorem status_code_classifier_witness :
    statusCodeIssues 503 = ["Server error (503)"]
    ∧ statusCodeIssues 404 = ["Client error (404)"]
    ∧ statusCodeIssues 301 = ["Redirect detected (301)"]
    ∧ statusCodeIssues 200 = [] :=
  ⟨(status_code_classifier.1 503 (by omega)).trans (by decide),
   (status_code_classifier.2.1 404 (by omega) (by omega)).trans (by decide),
   (status_code_classifier.2.2.1 301 (by omega) (by omega)).trans (by decide),
   status_code_classifier.2.2.2.1 200 (by omega)⟩

/-- C3: a thrown fetch yields the terminal error report — status `error`,
exactly the one issue `"Failed to fetch website: <message>"`, exactly the
one accessibility recommendation, and no status code, response time or
scores; conversely a successful fetch always carries status code, response
time and all three scores. -/
theorem fetch_failure_and_success_shape :
    (∀ url msg : String,
      runCheck url (.failure msg) =
        { url := normalizeUrl url
          status := "error"
          statusCode := none
          responseTime := none
          issues := ["Failed to fetch website: " ++ msg]
          recommendations := ["Ensure the website is accessible and not blocking requests"]
          seoScore := none
          performanceScore := none
          securityScore := none })
    ∧ (∀ (url html : String) (sc rt : Nat) (headers : List (String × String))
        (d : Doc),
        (runCheck url (.success sc rt html headers d)).statusCode = some sc
        ∧ (runCheck url (.success sc rt html headers d)).responseTime = some rt
        ∧ (runCheck url (.success sc rt html headers d)).seoScore.isSome = true
        ∧ (runCheck url (.success sc rt html headers d)).performanceScore.isSome = true
        ∧ (runCheck url (.success sc rt html headers d)).securityScore.isSome = true) :=
  ⟨fun _ _ => rfl, fun _ _ _ _ _ _ => ⟨rfl, rfl, rfl, rfl, rfl⟩⟩

/-- C5: for the worked example — `<title>Home</title>`, no meta
description, one `<h1>`, no images, a viewport meta tag with content,
fetched over HTTPS with all four security headers present, status 200,
500 ms — the report has `seoScore = 85`, `securityScore = 100`, exactly the
issue `"Missing meta description"`, and status `"warning"`. -/
theorem sample_document_report :
    sampleReport.seoScore = some 85
    ∧ sampleReport.securityScore = some 100
    ∧ sampleReport.issues = ["Missing meta description"]
    ∧ sampleReport.status = "warning" := by
  decide

/-- C6: when `N > 0` images lack `alt`, the SEO block contains the issue
`"N images missing alt text"` and its score is exactly `min 10 (2 * N)`
below the same document with no such images; for `N = 6` the difference is
10; for `N = 0` the image check contributes no issue and no deduction. -/
theorem image_alt_deduction :
    ∀ d : Doc,
      (0 < d.imagesWithoutAlt →
        (toString d.imagesWithoutAlt ++ " images missing alt text")
            ∈ (seoAnalysis d).issues
        ∧ (seoAnalysis { d with imagesWithoutAlt := 0 }).score - (seoAnalysis d).score
            = min 10 ((d.imagesWithoutAlt : Int) * 2))
      ∧ (d.imagesWithoutAlt = 6 →
        (seoAnalysis { d with imagesWithoutAlt := 0 }).score - (seoAnalysis d).score = 10)
      ∧ (d.imagesWithoutAlt = 0 →
        (seoAnalysis d).issues
            = (titleCheck d.title).issues ++ (metaDescriptionCheck d.metaDescription).issues
              ++ (h1Check d.h1Count).issues ++ (viewportCheck d.viewport).issues
        ∧ (seoAnalysis d).score
            = 100 - (titleCheck d.title).ded - (metaDescriptionCheck d.metaDescription).ded
              - (h1Check d.h1Count).ded - (viewportCheck d.viewport).ded) := by
  intro d
  refine ⟨?_, ?_, ?_⟩
  · intro h
    constructor
    · simp [seoAnalysis, imageCheck, h]
    · simp [seoAnalysis, imageCheck, h]
  · intro h6
    simp [seoAnalysis, imageCheck, h6]
  · intro h0
    constructor
    · simp [seoAnalysis, imageCheck, h0]
    · simp [seoAnalysis, imageCheck, h0]

/-- Witness for C6 at a document with six alt-less images. -/
theorem image_alt_deduction_witness :
    (toString 6 ++ " images missing alt text") ∈ (seoAnalysis sixImageDoc).issues
    ∧ (seoAnalysis { sixImageDoc with imagesWithoutAlt := 0 }).score
        - (seoAnalysis sixImageDoc).score = 10 :=
  ⟨((image_alt_deduction sixImageDoc).1 (by decide)).1,
   (image_alt_deduction sixImageDoc).2.1 (by decide)⟩

/-- C1 counterexample: the claimed biconditional "status = error iff
(issues.length > 5 or statusCode >= 500)" does not hold of every report the
endpoint produces — the fetch-failure report has `status = "error"` with a
single issue and no status code at all, so the left side is true and the
right side false there. -/
theorem status_derivation_counterexample :
    (runCheck "https://example.com" (FetchOutcome.failure "timeout")).status = "error"
    ∧ (runCheck "https://example.com" (FetchOutcome.failure "timeout")).issues.length = 1
    ∧ (runCheck "https://example.com" (FetchOutcome.failure "timeout")).statusCode = none := by
  decide

/-- C1 (amended to the successful-fetch path, which the fetch-failure
report above forces): on the successful-fetch path, `status = "error"` iff
`issues.length > 5` or `statusCode >= 500`; `status = "warning"` iff not
error and (`issues.length > 0` or the pre-append recommendations exceed 3);
otherwise `"success"`; and the "Great job" recommendation is appended only
afterwards, exactly when `issues` is empty, so it never feeds back into the
derived status. -/
theorem status_derivation_spec :
    ∀ (url html : String) (sc rt : Nat) (headers : List (String × String)) (d : Doc),
      ((runCheck url (.success sc rt html headers d)).status = "error"
        ↔ (5 < (runCheck url (.success sc rt html headers d)).issues.length ∨ 500 ≤ sc))
      ∧ ((runCheck url (.success sc rt html headers d)).status = "warning"
        ↔ (¬(5 < (runCheck url (.success sc rt html headers d)).issues.length ∨ 500 ≤ sc)
           ∧ (0 < (runCheck url (.success sc rt html headers d)).issues.length
              ∨ 3 < (analysisRecs rt (normalizeUrl url) html headers d).length)))
      ∧ ((runCheck url (.success sc rt html headers d)).status = "success"
        ↔ (¬(5 < (runCheck url (.success sc rt html headers d)).issues.length ∨ 500 ≤ sc)
           ∧ ¬(0 < (runCheck url (.success sc rt html headers d)).issues.length
               ∨ 3 < (analysisRecs rt (normalizeUrl url) html headers d).length)))
      ∧ (runCheck url (.success sc rt html headers d)).recommendations
          = (if (runCheck url (.success sc rt html headers d)).issues.length = 0
             then analysisRecs rt (normalizeUrl url) html headers d
                    ++ ["Great job! No critical issues detected"]
             else analysisRecs rt (normalizeUrl url) html headers d) := by
  intro url html sc rt headers d
  rw [runCheck_success_issues, runCheck_success_status, runCheck_success_recs]
  set I := analysisIssues sc rt (normalizeUrl url) html headers d with hI
  set R := analysisRecs rt (normalizeUrl url) html headers d with hR
  refine ⟨?_, ?_, ?_, ?_⟩
  · unfold deriveStatus
    by_cases h1 : (5 < I.length ∨ 500 ≤ sc) <;> by_cases h2 : (0 < I.length ∨ 3 < R.length) <;>
      simp [h1, h2]
  · unfold deriveStatus
    by_cases h1 : (5 < I.length ∨ 500 ≤ sc) <;> by_cases h2 : (0 < I.length ∨ 3 < R.length) <;>
      simp [h1, h2]
  · unfold deriveStatus
    by_cases h1 : (5 < I.length ∨ 500 ≤ sc) <;> by_cases h2 : (0 < I.length ∨ 3 < R.length) <;>
      simp [h1, h2]
  · by_cases hz : I.length = 0 <;> simp [hz]

/-- C2: on the successful-fetch path every score field is present and is an
integer in `[0, 100]`, and each individual check's deduction is
non-negative (so scores start at 100 and only ever decrease, with the final
floor at 0). -/
theorem scores_within_bounds :
    ∀ (url html : String) (sc rt : Nat) (headers : List (String × String)) (d : Doc),
      (∃ a : Int, (runCheck url (.success sc rt html headers d)).seoScore = some a
        ∧ 0 ≤ a ∧ a ≤ 100)
      ∧ (∃ b : Int, (runCheck url (.success sc rt html headers d)).performanceScore = some b
        ∧ 0 ≤ b ∧ b ≤ 100)
      ∧ (∃ c : Int, (runCheck url (.success sc rt html headers d)).securityScore = some c
        ∧ 0 ≤ c ∧ c ≤ 100)
      ∧ 0 ≤ (titleCheck d.title).ded
      ∧ 0 ≤ (metaDescriptionCheck d.metaDescription).ded
      ∧ 0 ≤ (h1Check d.h1Count).ded
      ∧ 0 ≤ (imageCheck d.imagesWithoutAlt).ded
      ∧ 0 ≤ (viewportCheck d.viewport).ded
      ∧ 0 ≤ (httpsCheck (normalizeUrl url)).ded
      ∧ (∀ k n : String, 0 ≤ (headerCheck headers k n).ded)
      ∧ 0 ≤ (inlineScriptsCheck d.inlineScripts).ded
      ∧ 0 ≤ (externalScriptsCheck d.externalScripts).ded
      ∧ 0 ≤ (stylesheetsCheck d.stylesheets).ded
      ∧ 0 ≤ (minifyCheck html).ded := by
  intro url html sc rt headers d
  have hseo := seoAnalysis_score_bounds d
  have hsec := securityAnalysis_score_bounds (normalizeUrl url) headers
  have hperf := performanceAnalysis_score_bounds d html
  refine ⟨⟨max 0 (seoAnalysis d).score, rfl, ?_, ?_⟩,
    ⟨max 0 (performanceAnalysis d html).score, rfl, ?_, ?_⟩,
    ⟨max 0 (securityAnalysis (normalizeUrl url) headers).score, rfl, ?_, ?_⟩,
    ?_, ?_, ?_, ?_, ?_, ?_, ?_, ?_, ?_, ?_, ?_⟩
  · omega
  · omega
  · omega
  · omega
  · omega
  · omega
  · unfold titleCheck; split_ifs <;> simp
  · unfold metaDescriptionCheck; split_ifs <;> simp
  · unfold h1Check; split_ifs <;> simp
  · unfold imageCheck; split_ifs <;> simp
  · unfold viewportCheck; split_ifs <;> simp
  · unfold httpsCheck; split_ifs <;> simp
  · intro k n; unfold headerCheck; split_ifs <;> simp
  · unfold inlineScriptsCheck; split_ifs <;> simp
  · unfold externalScriptsCheck; split_ifs <;> simp
  · unfold stylesheetsCheck; split_ifs <;> simp
  · unfold minifyCheck; split_ifs <;> simp

/-- C9: the issues and recommendations of a successful check are the
concatenation of the per-block outputs in execution order — status-code and
latency strings first, then the SEO block, then the security block, then
the performance block (with the "Great job" message, when present, last) —
and the whole pipeline is a function of the fetched snapshot, so equal
snapshots give equal reports. -/
theorem block_order_and_determinism :
    ∀ (url html : String) (sc rt : Nat) (headers : List (String × String)) (d : Doc),
      (runCheck url (.success sc rt html headers d)).issues
          = statusCodeIssues sc ++ (responseTimeCheck rt).issues ++ (seoAnalysis d).issues
            ++ (securityAnalysis (normalizeUrl url) headers).issues
            ++ (performanceAnalysis d html).issues
      ∧ (runCheck url (.success sc rt html headers d)).recommendations
          = (responseTimeCheck rt).recs ++ (seoAnalysis d).recs
            ++ (securityAnalysis (normalizeUrl url) headers).recs
            ++ (performanceAnalysis d html).recs
            ++ (if (runCheck url (.success sc rt html headers d)).issues.length = 0
                then ["Great job! No critical issues detected"] else [])
      ∧ (∀ o₁ o₂ : FetchOutcome, o₁ = o₂ → runCheck url o₁ = runCheck url o₂) := by
  intro url html sc rt headers d
  refine ⟨rfl, ?_, ?_⟩
  · rw [runCheck_success_recs, runCheck_success_issues]
    by_cases hz : (analysisIssues sc rt (normalizeUrl url) html headers d).length = 0 <;>
      simp [hz, analysisRecs]
  · intro o₁ o₂ h
    rw [h]

/-- Witness for C9's snapshot-congruence conjunct at a concrete outcome. -/
theorem block_order_and_determinism_witness :
    runCheck "https://example.com" (FetchOutcome.failure "timeout")
      = runCheck "https://example.com" (FetchOutcome.failure "timeout") :=
  (block_order_and_determinism "https://example.com" "" 200 500 [] sampleDoc).2.2
    (FetchOutcome.failure "timeout") (FetchOutcome.failure "timeout") rfl

/-- C10: the deductions are bounded — SEO at most 60, security at most 70,
performance at most 35 — so each block score is respectively at least 40,
30 and 65, and the `Math.max(0, ·)` floor at report assembly never changes
any value: each reported score equals the unclamped block score. -/
theorem clamp_unreachable :
    ∀ (url html : String) (sc rt : Nat) (headers : List (String × String)) (d : Doc),
      40 ≤ (seoAnalysis d).score
      ∧ 30 ≤ (securityAnalysis (normalizeUrl url) headers).score
      ∧ 65 ≤ (performanceAnalysis d html).score
      ∧ (runCheck url (.success sc rt html headers d)).seoScore
          = some (seoAnalysis d).score
      ∧ (runCheck url (.success sc rt html headers d)).performanceScore
          = some (performanceAnalysis d html).score
      ∧ (runCheck url (.success sc rt html headers d)).securityScore
          = some (securityAnalysis (normalizeUrl url) headers).score := by
  intro url html sc rt headers d
  have hseo := seoAnalysis_score_bounds d
  have hsec := securityAnalysis_score_bounds (normalizeUrl url) headers
  have hperf := performanceAnalysis_score_bounds d html
  refine ⟨hseo.1, hsec.1, hperf.1, ?_, ?_, ?_⟩
  · show some (max 0 (seoAnalysis d).score) = some (seoAnalysis d).score
    rw [max_eq_right (by omega)]
  · show some (max 0 (performanceAnalysis d html).score)
        = some (performanceAnalysis d html).score
    rw [max_eq_right (by omega)]
  · show some (max 0 (securityAnalysis (normalizeUrl url) headers).score)
        = some (securityAnalysis (normalizeUrl url) headers).score
    rw [max_eq_right (by omega)]

/-- C4: with distinct (lower-cased) raw header names, the security block
treats each of the four security headers as present exactly when it occurs
truthily in the raw response headers under any casing (axios lower-cases
the names; the code then checks the lower-case key, and the redundant
`toLowerCase()` second probe changes nothing); each absent header
contributes its "Consider adding <Canonical-Name> header" recommendation
and an independent deduction of 10 — up to 40 in total — on top of the
HTTPS penalty. -/
theorem security_header_checks_case_insensitive :
    ∀ (url : String) (raw : List (String × String)),
      (raw.map fun p => strToLower p.1).Nodup →
      (securityAnalysis url (lowerNames raw)).recs
          = (httpsCheck url).recs
            ++ ((securityHeaderTable.filter fun kv => !(headerPresentCI raw kv.1)).map
                fun kv => "Consider adding " ++ kv.2 ++ " header")
      ∧ (securityAnalysis url (lowerNames raw)).score
          = 100 - (httpsCheck url).ded
            - 10 * ((securityHeaderTable.filter fun kv => !(headerPresentCI raw kv.1)).length : Int) := by
  intro url raw hnd
  have h1 := headerCheck_lowerNames raw "strict-transport-security"
    "Strict-Transport-Security" hnd (by decide)
  have h2 := headerCheck_lowerNames raw "x-frame-options" "X-Frame-Options" hnd (by decide)
  have h3 := headerCheck_lowerNames raw "x-content-type-options"
    "X-Content-Type-Options" hnd (by decide)
  have h4 := headerCheck_lowerNames raw "content-security-policy"
    "Content-Security-Policy" hnd (by decide)
  simp only [securityAnalysis]
  rw [h1, h2, h3, h4]
  by_cases p1 : headerPresentCI raw "strict-transport-security" <;>
  by_cases p2 : headerPresentCI raw "x-frame-options" <;>
  by_cases p3 : headerPresentCI raw "x-content-type-options" <;>
  by_cases p4 : headerPresentCI raw "content-security-policy" <;>
    simp [securityHeaderTable, p1, p2, p3, p4] <;> omega

/-- Witness for C4: one header present in canonical casing, the other
three absent — three recommendations and a 30-point total deduction. -/
theorem security_header_checks_case_insensitive_witness :
    (securityAnalysis "https://example.com"
        (lowerNames [("X-Frame-Options", "DENY")])).recs
      = ["Consider adding Strict-Transport-Security header",
         "Consider adding X-Content-Type-Options header",
         "Consider adding Content-Security-Policy header"]
    ∧ (securityAnalysis "https://example.com"
        (lowerNames [("X-Frame-Options", "DENY")])).score = 70 :=
  ⟨((security_header_checks_case_insensitive "https://example.com"
      [("X-Frame-Options", "DENY")] (by decide)).1).trans (by decide),
   ((security_header_checks_case_insensitive "https://example.com"
      [("X-Frame-Options", "DENY")] (by decide)).2).trans (by decide)⟩
